import Mathlib

/-!
Verification of the NeighborFit matching algorithm.

This file embeds, over the rationals, the two variants of
`calculateAndSaveMatches` found in the repository:

* the enhanced variant (module `src/unnamed/part_000`): normalises the 13
  neighborhood attribute scores to [0,1] (`min (x/10) 1`) and the 13 user
  importance ratings to [0,1] (`w/5`), forms the weighted average, maps it
  affinely onto [40,95] (`40 + nm * 55`), clamps, rounds to one decimal,
  sorts descending, then applies a rank boost (`(10-i)*2` for ranks `i < 10`,
  capped at 95), a jitter term in [-1,1), a clamp to [40,95] and a final
  round to one decimal, and finally persists the results with a
  delete / upsert / fallback-insert sequence;
* the simple variant (`src/lib/database.ts`): computes
  `(Σ aᵢ·(wᵢ/5) / Σ wᵢ) * 10` rounded to two decimals.

JavaScript numbers are modelled as rationals; `toFixed` is modelled as
round-half-up at the corresponding precision (all scores here are
nonnegative, where the two coincide); `Math.random()` is modelled by an
explicit jitter function `ℕ → ℚ` giving the value `(Math.random()-0.5)*2`
drawn at each index.  The result store is a list of rows; the fallible
database calls (delete / upsert / insert) are modelled by explicit
success flags.
-/

namespace NeighborFit

/-- User importance ratings: the 13 `*_importance` fields of the
`user_preferences` row (documented domain: integers in [1,5]). -/
structure UserPreferences where
  safety_importance : ℚ
  affordability_importance : ℚ
  connectivity_importance : ℚ
  metro_access_importance : ℚ
  food_culture_importance : ℚ
  nightlife_importance : ℚ
  family_friendly_importance : ℚ
  cultural_diversity_importance : ℚ
  green_spaces_importance : ℚ
  job_opportunities_importance : ℚ
  healthcare_importance : ℚ
  education_importance : ℚ
  shopping_importance : ℚ
deriving DecidableEq

/-- Neighborhood attribute scores: the 13 `*_score` fields of a
`neighborhoods` row (documented domain: [0,10]), plus the row id. -/
structure Neighborhood where
  id : ℕ
  safety_score : ℚ
  affordability_score : ℚ
  connectivity_score : ℚ
  metro_access_score : ℚ
  food_culture_score : ℚ
  nightlife_score : ℚ
  family_friendly_score : ℚ
  cultural_diversity_score : ℚ
  green_spaces_score : ℚ
  job_opportunities_score : ℚ
  healthcare_score : ℚ
  education_score : ℚ
  shopping_score : ℚ
deriving DecidableEq

/-- One `user_results` row (the `Omit<UserResult, "id" | "created_at">`
shape built by `calculateAndSaveMatches`). -/
structure MatchResult where
  user_id : String
  neighborhood_id : ℕ
  match_score : ℚ
deriving DecidableEq

/-- Model of JavaScript `Number.parseFloat(x.toFixed(1))` for the
nonnegative scores occurring here: round half-up at one decimal. -/
def toFixed1 (x : ℚ) : ℚ := (round (10 * x) : ℚ) / 10

/-- Model of `Number.parseFloat(x.toFixed(2))`: round half-up at two
decimals. -/
def toFixed2 (x : ℚ) : ℚ := (round (100 * x) : ℚ) / 100

/-- Validity of an importance vector: every field in the documented
domain [1,5]. -/
def ValidImportance (p : UserPreferences) : Prop :=
  (1 ≤ p.safety_importance ∧ p.safety_importance ≤ 5) ∧
  (1 ≤ p.affordability_importance ∧ p.affordability_importance ≤ 5) ∧
  (1 ≤ p.connectivity_importance ∧ p.connectivity_importance ≤ 5) ∧
  (1 ≤ p.metro_access_importance ∧ p.metro_access_importance ≤ 5) ∧
  (1 ≤ p.food_culture_importance ∧ p.food_culture_importance ≤ 5) ∧
  (1 ≤ p.nightlife_importance ∧ p.nightlife_importance ≤ 5) ∧
  (1 ≤ p.family_friendly_importance ∧ p.family_friendly_importance ≤ 5) ∧
  (1 ≤ p.cultural_diversity_importance ∧ p.cultural_diversity_importance ≤ 5) ∧
  (1 ≤ p.green_spaces_importance ∧ p.green_spaces_importance ≤ 5) ∧
  (1 ≤ p.job_opportunities_importance ∧ p.job_opportunities_importance ≤ 5) ∧
  (1 ≤ p.healthcare_importance ∧ p.healthcare_importance ≤ 5) ∧
  (1 ≤ p.education_importance ∧ p.education_importance ≤ 5) ∧
  (1 ≤ p.shopping_importance ∧ p.shopping_importance ≤ 5)

/-- Validity of an attribute vector: every field in the documented
domain [0,10]. -/
def ValidAttributes (n : Neighborhood) : Prop :=
  (0 ≤ n.safety_score ∧ n.safety_score ≤ 10) ∧
  (0 ≤ n.affordability_score ∧ n.affordability_score ≤ 10) ∧
  (0 ≤ n.connectivity_score ∧ n.connectivity_score ≤ 10) ∧
  (0 ≤ n.metro_access_score ∧ n.metro_access_score ≤ 10) ∧
  (0 ≤ n.food_culture_score ∧ n.food_culture_score ≤ 10) ∧
  (0 ≤ n.nightlife_score ∧ n.nightlife_score ≤ 10) ∧
  (0 ≤ n.family_friendly_score ∧ n.family_friendly_score ≤ 10) ∧
  (0 ≤ n.cultural_diversity_score ∧ n.cultural_diversity_score ≤ 10) ∧
  (0 ≤ n.green_spaces_score ∧ n.green_spaces_score ≤ 10) ∧
  (0 ≤ n.job_opportunities_score ∧ n.job_opportunities_score ≤ 10) ∧
  (0 ≤ n.healthcare_score ∧ n.healthcare_score ≤ 10) ∧
  (0 ≤ n.education_score ∧ n.education_score ≤ 10) ∧
  (0 ≤ n.shopping_score ∧ n.shopping_score ≤ 10)

instance (p : UserPreferences) : Decidable (ValidImportance p) := by
  unfold ValidImportance; infer_instance

instance (n : Neighborhood) : Decidable (ValidAttributes n) := by
  unfold ValidAttributes; infer_instance

/-! ## Enhanced variant (`src/unnamed/part_000`, `calculateAndSaveMatches`) -/

/-- The `totalWeightedScore` of the enhanced variant: sum over the 13
factors of `normalizedScores.f * normalizedImportance.f`, where
`normalizedScores.f = min (score/10) 1` and
`normalizedImportance.f = importance/5` (lines 152-205). -/
def totalWeightedScore (p : UserPreferences) (n : Neighborhood) : ℚ :=
  min (n.safety_score / 10) 1 * (p.safety_importance / 5) +
  min (n.affordability_score / 10) 1 * (p.affordability_importance / 5) +
  min (n.connectivity_score / 10) 1 * (p.connectivity_importance / 5) +
  min (n.metro_access_score / 10) 1 * (p.metro_access_importance / 5) +
  min (n.food_culture_score / 10) 1 * (p.food_culture_importance / 5) +
  min (n.nightlife_score / 10) 1 * (p.nightlife_importance / 5) +
  min (n.family_friendly_score / 10) 1 * (p.family_friendly_importance / 5) +
  min (n.cultural_diversity_score / 10) 1 * (p.cultural_diversity_importance / 5) +
  min (n.green_spaces_score / 10) 1 * (p.green_spaces_importance / 5) +
  min (n.job_opportunities_score / 10) 1 * (p.job_opportunities_importance / 5) +
  min (n.healthcare_score / 10) 1 * (p.healthcare_importance / 5) +
  min (n.education_score / 10) 1 * (p.education_importance / 5) +
  min (n.shopping_score / 10) 1 * (p.shopping_importance / 5)

/-- The `totalImportanceWeight` of the enhanced variant: sum of the 13
normalised importance weights `importance/5` (line 208). -/
def totalImportanceWeight (p : UserPreferences) : ℚ :=
  p.safety_importance / 5 +
  p.affordability_importance / 5 +
  p.connectivity_importance / 5 +
  p.metro_access_importance / 5 +
  p.food_culture_importance / 5 +
  p.nightlife_importance / 5 +
  p.family_friendly_importance / 5 +
  p.cultural_diversity_importance / 5 +
  p.green_spaces_importance / 5 +
  p.job_opportunities_importance / 5 +
  p.healthcare_importance / 5 +
  p.education_importance / 5 +
  p.shopping_importance / 5

/-- The `baseScore` constant (line 212). -/
def baseScore : ℚ := 40

/-- The `variableScore` constant (line 213). -/
def variableScore : ℚ := 55

/-- The `matchScore` variable of the enhanced variant: `baseScore` if the
zero-division guard fires, else `baseScore + normalizedMatch * variableScore`
(lines 215-219). -/
def matchScore (p : UserPreferences) (n : Neighborhood) : ℚ :=
  if 0 < totalImportanceWeight p then
    baseScore + totalWeightedScore p n / totalImportanceWeight p * variableScore
  else baseScore

/-- The `finalScore` of the enhanced variant:
`Math.min(Math.max(matchScore, baseScore), baseScore + variableScore)`
(line 222). -/
def finalScore (p : UserPreferences) (n : Neighborhood) : ℚ :=
  min (max (matchScore p n) baseScore) (baseScore + variableScore)

/-- One element of the `results` array of the enhanced variant
(lines 224-228): the pre-enhancement `MatchResult`, score rounded to one
decimal. -/
def computeResult (userId : String) (p : UserPreferences) (n : Neighborhood) :
    MatchResult :=
  { user_id := userId, neighborhood_id := n.id,
    match_score := toFixed1 (finalScore p n) }

/-- Stable insertion into a descending list: the new element goes after
every earlier element whose score is at least as large. -/
def insertDesc (r : MatchResult) : List MatchResult → List MatchResult
  | [] => [r]
  | s :: ss =>
    if s.match_score < r.match_score then r :: s :: ss else s :: insertDesc r ss

/-- The descending sort `results.sort((a, b) => b.match_score - a.match_score)`
(line 232), modelled by a stable insertion sort. -/
def sortResults (rs : List MatchResult) : List MatchResult :=
  rs.foldr insertDesc []

/-- The rank boost `(10 - index) * 2` applied to the top 10 results
(line 249). -/
def boostAmount (i : ℕ) : ℚ := (10 - (i : ℚ)) * 2

/-- The enhancement of one result at zero-based rank `i` with jitter value
`j` (lines 244-261): boost if `i < 10` capped at 95, add jitter, clamp to
[40,95], round to one decimal. -/
def enhanceOne (i : ℕ) (j : ℚ) (r : MatchResult) : MatchResult :=
  let boosted := if i < 10 then min (r.match_score + boostAmount i) 95
    else r.match_score
  { r with match_score := toFixed1 (max 40 (min 95 (boosted + j))) }

/-- The `results.map((result, index) => ...)` of the enhancement step,
starting from rank `i`; `jitter k` is the value `(Math.random()-0.5)*2`
drawn for the element at rank `k`. -/
def enhanceFrom (jitter : ℕ → ℚ) : ℕ → List MatchResult → List MatchResult
  | _, [] => []
  | i, r :: rs => enhanceOne i (jitter i) r :: enhanceFrom jitter (i + 1) rs

/-- The `enhancedResults` list (lines 244-261) applied to a result list. -/
def enhance (jitter : ℕ → ℚ) (rs : List MatchResult) : List MatchResult :=
  enhanceFrom jitter 0 rs

/-- Validity of a jitter source: each drawn value `(Math.random()-0.5)*2`
lies in [-1,1). -/
def ValidJitter (jitter : ℕ → ℚ) : Prop :=
  ∀ i, -1 ≤ jitter i ∧ jitter i < 1

/-- The pure computation of the enhanced variant, from the neighborhood
list to the `enhancedResults` list: map, sort descending, enhance
(lines 152-261). -/
def computeMatches (userId : String) (p : UserPreferences)
    (neighborhoods : List Neighborhood) (jitter : ℕ → ℚ) : List MatchResult :=
  enhance jitter (sortResults (neighborhoods.map (computeResult userId p)))

/-! ## Simple variant (`src/lib/database.ts`, `calculateAndSaveMatches`) -/

/-- The `totalScore` of the simple variant: sum over the 13 factors of
`neighborhood.f_score * (preferences.f_importance / 5)` (lines 147-192). -/
def simpleTotalScore (p : UserPreferences) (n : Neighborhood) : ℚ :=
  n.safety_score * (p.safety_importance / 5) +
  n.affordability_score * (p.affordability_importance / 5) +
  n.connectivity_score * (p.connectivity_importance / 5) +
  n.metro_access_score * (p.metro_access_importance / 5) +
  n.food_culture_score * (p.food_culture_importance / 5) +
  n.nightlife_score * (p.nightlife_importance / 5) +
  n.family_friendly_score * (p.family_friendly_importance / 5) +
  n.cultural_diversity_score * (p.cultural_diversity_importance / 5) +
  n.green_spaces_score * (p.green_spaces_importance / 5) +
  n.job_opportunities_score * (p.job_opportunities_importance / 5) +
  n.healthcare_score * (p.healthcare_importance / 5) +
  n.education_score * (p.education_importance / 5) +
  n.shopping_score * (p.shopping_importance / 5)

/-- The `totalImportance` of the simple variant: the plain sum of the 13
importance ratings (lines 163-176). -/
def simpleTotalImportance (p : UserPreferences) : ℚ :=
  p.safety_importance +
  p.affordability_importance +
  p.connectivity_importance +
  p.metro_access_importance +
  p.food_culture_importance +
  p.nightlife_importance +
  p.family_friendly_importance +
  p.cultural_diversity_importance +
  p.green_spaces_importance +
  p.job_opportunities_importance +
  p.healthcare_importance +
  p.education_importance +
  p.shopping_importance

/-- The `matchScore` of the simple variant:
`(totalScore / totalImportance) * 10` (line 195), before rounding. -/
def simpleMatchScore (p : UserPreferences) (n : Neighborhood) : ℚ :=
  simpleTotalScore p n / simpleTotalImportance p * 10

/-- One result row of the simple variant (lines 197-201): score rounded
to two decimals. -/
def simpleResult (userId : String) (p : UserPreferences) (n : Neighborhood) :
    MatchResult :=
  { user_id := userId, neighborhood_id := n.id,
    match_score := toFixed2 (simpleMatchScore p n) }

/-! ## Persistence step (`src/unnamed/part_000`, lines 272-313)

The result store (`user_results` table) is a list of rows; the three
fallible database calls are modelled by success flags. -/

/-- Success flags for the delete, upsert and fallback-insert calls of the
persistence step. -/
structure DbFlags where
  deleteOk : Bool
  upsertOk : Bool
  insertOk : Bool
deriving DecidableEq

/-- Key equality on the `(user_id, neighborhood_id)` conflict target. -/
def sameKey (a b : MatchResult) : Bool :=
  decide (a.user_id = b.user_id ∧ a.neighborhood_id = b.neighborhood_id)

/-- The delete call `from("user_results").delete().eq("user_id", userId)`
(line 274): removes every row of the user. -/
def deleteForUser (store : List MatchResult) (userId : String) :
    List MatchResult :=
  store.filter (fun r => decide (r.user_id ≠ userId))

/-- Upsert of one row with conflict target `(user_id, neighborhood_id)`:
replace the conflicting rows if present, else append. -/
def upsertRow (store : List MatchResult) (r : MatchResult) : List MatchResult :=
  if store.any (fun s => sameKey s r) then
    store.map (fun s => if sameKey s r then r else s)
  else store ++ [r]

/-- The upsert call (lines 285-291) applied to a list of rows. -/
def applyUpsert (store : List MatchResult) (rows : List MatchResult) :
    List MatchResult :=
  rows.foldl upsertRow store

/-- The persistence step of the enhanced variant (lines 272-313): delete
the user's rows (continuing on failure), then upsert the new rows; on
upsert failure fall back to a plain insert; if both fail return the empty
list (the surfaced failure).  Returns the pair (returned rows, new store
contents). -/
def saveResults (store : List MatchResult) (userId : String)
    (enhanced : List MatchResult) (flags : DbFlags) :
    List MatchResult × List MatchResult :=
  let store1 := if flags.deleteOk then deleteForUser store userId else store
  if flags.upsertOk then (enhanced, applyUpsert store1 enhanced)
  else if flags.insertOk then (enhanced, store1 ++ enhanced)
  else ([], store1)

/-- The whole enhanced `calculateAndSaveMatches` (lines 122-313): missing
preferences or an empty catalog return the empty list without touching
the store; otherwise the pure computation runs and its output is
persisted.  Returns the pair (returned rows, new store contents). -/
def calculateAndSaveMatches (userId : String) (prefs : Option UserPreferences)
    (neighborhoods : List Neighborhood) (jitter : ℕ → ℚ) (flags : DbFlags)
    (store : List MatchResult) : List MatchResult × List MatchResult :=
  match prefs with
  | none => ([], store)
  | some p =>
    if neighborhoods.isEmpty then ([], store)
    else saveResults store userId (computeMatches userId p neighborhoods jitter)
      flags

/-! ## Spec-side definitions for the refinement comparison -/

/-- The common weighted sum `Σ attribute_i * importance_i` of the
refinement claim, stated over the raw (unnormalised) fields. -/
def specWeightedSum (p : UserPreferences) (n : Neighborhood) : ℚ :=
  n.safety_score * p.safety_importance +
  n.affordability_score * p.affordability_importance +
  n.connectivity_score * p.connectivity_importance +
  n.metro_access_score * p.metro_access_importance +
  n.food_culture_score * p.food_culture_importance +
  n.nightlife_score * p.nightlife_importance +
  n.family_friendly_score * p.family_friendly_importance +
  n.cultural_diversity_score * p.cultural_diversity_importance +
  n.green_spaces_score * p.green_spaces_importance +
  n.job_opportunities_score * p.job_opportunities_importance +
  n.healthcare_score * p.healthcare_importance +
  n.education_score * p.education_importance +
  n.shopping_score * p.shopping_importance

/-- The weighted ratio `Σ attribute_i * importance_i / Σ importance_i`
that both variants are claimed to be affine functions of. -/
def specRatio (p : UserPreferences) (n : Neighborhood) : ℚ :=
  specWeightedSum p n / simpleTotalImportance p

/-- Pointwise domination of attribute vectors: every field of `B` is at
most the corresponding field of `A`. -/
def AttrLe (B A : Neighborhood) : Prop :=
  B.safety_score ≤ A.safety_score ∧
  B.affordability_score ≤ A.affordability_score ∧
  B.connectivity_score ≤ A.connectivity_score ∧
  B.metro_access_score ≤ A.metro_access_score ∧
  B.food_culture_score ≤ A.food_culture_score ∧
  B.nightlife_score ≤ A.nightlife_score ∧
  B.family_friendly_score ≤ A.family_friendly_score ∧
  B.cultural_diversity_score ≤ A.cultural_diversity_score ∧
  B.green_spaces_score ≤ A.green_spaces_score ∧
  B.job_opportunities_score ≤ A.job_opportunities_score ∧
  B.healthcare_score ≤ A.healthcare_score ∧
  B.education_score ≤ A.education_score ∧
  B.shopping_score ≤ A.shopping_score

/-! ## Sample inputs used by the witnesses -/

/-- Importance vector with every field at the maximum 5. -/
def samplePrefsMax : UserPreferences := ⟨5, 5, 5, 5, 5, 5, 5, 5, 5, 5, 5, 5, 5⟩

/-- Importance vector with every field at the minimum 1. -/
def samplePrefsMin : UserPreferences := ⟨1, 1, 1, 1, 1, 1, 1, 1, 1, 1, 1, 1, 1⟩

/-- Neighborhood with every attribute at 5. -/
def sampleNbhdMid : Neighborhood := ⟨1, 5, 5, 5, 5, 5, 5, 5, 5, 5, 5, 5, 5, 5⟩

/-- Neighborhood with every attribute at the maximum 10. -/
def sampleNbhdMax : Neighborhood := ⟨1, 10, 10, 10, 10, 10, 10, 10, 10, 10, 10, 10, 10, 10⟩

/-- Neighborhood with every attribute at the minimum 0. -/
def sampleNbhdMin : Neighborhood := ⟨2, 0, 0, 0, 0, 0, 0, 0, 0, 0, 0, 0, 0, 0⟩

/-- The zero-jitter source (`(Math.random()-0.5)*2` forced to 0). -/
def zeroJitter : ℕ → ℚ := fun _ => 0

/-- A jitter source drawing 0.96 every time (a legal value of
`(Math.random()-0.5)*2`). -/
def jitterHigh : ℕ → ℚ := fun _ => 24 / 25

/-- A jitter source drawing -1 every time (the legal minimum of
`(Math.random()-0.5)*2`, attained at `Math.random() = 0`). -/
def jitterLow : ℕ → ℚ := fun _ => -1

/-- A stored result row for user `u`, used to exercise the persistence
step. -/
def oldRow : MatchResult := ⟨"u", 1, 50⟩

/-- A freshly computed result row for user `u`. -/
def newRow : MatchResult := ⟨"u", 1, 90⟩

/-! ## Helper lemmas -/

theorem round_le_of_le {x y : ℚ} (h : x ≤ y) : round x ≤ round y := by
  rw [round_eq, round_eq]
  exact Int.floor_mono (by linarith)

theorem toFixed1_mono {x y : ℚ} (h : x ≤ y) : toFixed1 x ≤ toFixed1 y := by
  unfold toFixed1
  have := round_le_of_le (show 10 * x ≤ 10 * y by linarith)
  have h10 : ((round (10 * x) : ℚ)) ≤ ((round (10 * y) : ℚ)) := by
    exact_mod_cast this
  linarith

theorem toFixed1_of_intMul {x : ℚ} {k : ℤ} (h : 10 * x = (k : ℚ)) :
    toFixed1 x = x := by
  unfold toFixed1
  rw [h, round_intCast]
  field_simp at h ⊢
  linarith

theorem toFixed1_ge {x c : ℚ} {k : ℤ} (hk : 10 * c = (k : ℚ)) (h : c ≤ x) :
    c ≤ toFixed1 x := by
  calc c = toFixed1 c := (toFixed1_of_intMul hk).symm
  _ ≤ toFixed1 x := toFixed1_mono h

theorem toFixed1_le {x c : ℚ} {k : ℤ} (hk : 10 * c = (k : ℚ)) (h : x ≤ c) :
    toFixed1 x ≤ c := by
  calc toFixed1 x ≤ toFixed1 c := toFixed1_mono h
  _ = c := toFixed1_of_intMul hk

/-- A shift bound for rounding: if `x` exceeds `y` by at most `m/10`
(a one-decimal quantity), the rounded values differ by at most `m/10`. -/
theorem toFixed1_sub_le {x y : ℚ} {m : ℤ}
    (h : x ≤ y + (m : ℚ) / 10) : toFixed1 x ≤ toFixed1 y + (m : ℚ) / 10 := by
  unfold toFixed1
  have h1 : 10 * x ≤ 10 * y + (m : ℚ) := by linarith
  have h2 : round (10 * x) ≤ round (10 * y) + m := by
    have := round_le_of_le h1
    rwa [round_add_int] at this
  have h3 : ((round (10 * x) : ℚ)) ≤ ((round (10 * y) : ℚ)) + (m : ℚ) := by
    exact_mod_cast h2
  linarith

theorem toFixed2_mono {x y : ℚ} (h : x ≤ y) : toFixed2 x ≤ toFixed2 y := by
  unfold toFixed2
  have := round_le_of_le (show 100 * x ≤ 100 * y by linarith)
  have h100 : ((round (100 * x) : ℚ)) ≤ ((round (100 * y) : ℚ)) := by
    exact_mod_cast this
  linarith

theorem toFixed2_of_intMul {x : ℚ} {k : ℤ} (h : 100 * x = (k : ℚ)) :
    toFixed2 x = x := by
  unfold toFixed2
  rw [h, round_intCast]
  field_simp at h ⊢
  linarith

theorem toFixed2_ge {x c : ℚ} {k : ℤ} (hk : 100 * c = (k : ℚ)) (h : c ≤ x) :
    c ≤ toFixed2 x := by
  calc c = toFixed2 c := (toFixed2_of_intMul hk).symm
  _ ≤ toFixed2 x := toFixed2_mono h

theorem toFixed2_le {x c : ℚ} {k : ℤ} (hk : 100 * c = (k : ℚ)) (h : x ≤ c) :
    toFixed2 x ≤ c := by
  calc toFixed2 x ≤ toFixed2 c := toFixed2_mono h
  _ = toFixed2 c := rfl
  _ = c := toFixed2_of_intMul hk

/-- The clamp to [40,95] moves by at most the shift of its argument. -/
theorem clamp_shift {u v c : ℚ} (hc : 0 ≤ c) (h : u ≤ v + c) :
    max 40 (min 95 u) ≤ max 40 (min 95 v) + c := by
  simp only [max_def, min_def]
  split_ifs <;> linarith

/-- Every enhanced score lies in [40,95]: the clamp forces the bounds and
rounding to one decimal preserves them. -/
theorem enhanceOne_bounds (i : ℕ) (j : ℚ) (r : MatchResult) :
    40 ≤ (enhanceOne i j r).match_score ∧ (enhanceOne i j r).match_score ≤ 95 := by
  unfold enhanceOne
  simp only
  constructor
  · exact toFixed1_ge (k := 400) (by norm_num) (le_max_left _ _)
  · exact toFixed1_le (k := 950) (by norm_num)
      (max_le (by norm_num) (min_le_left _ _))

theorem enhanceFrom_bounds (jitter : ℕ → ℚ) (b : ℕ) (rs : List MatchResult) :
    ∀ r ∈ enhanceFrom jitter b rs,
      40 ≤ r.match_score ∧ r.match_score ≤ 95 := by
  induction rs generalizing b with
  | nil => intro r hr; simp [enhanceFrom] at hr
  | cons s ss ih =>
    intro r hr
    rcases List.mem_cons.mp hr with hr | hr
    · exact hr ▸ enhanceOne_bounds b (jitter b) s
    · exact ih (b + 1) r hr

/-- Positional description of the enhancement map: the element at
position `i` of `enhanceFrom jitter b rs` is the element at position `i`
of `rs` enhanced at rank `b + i`. -/
theorem enhanceFrom_getElem (jitter : ℕ → ℚ) (b : ℕ) (rs : List MatchResult)
    (i : ℕ) :
    (enhanceFrom jitter b rs)[i]? =
      (rs[i]?).map (fun r => enhanceOne (b + i) (jitter (b + i)) r) := by
  induction rs generalizing b i with
  | nil => simp [enhanceFrom]
  | cons s ss ih =>
    cases i with
    | zero => simp [enhanceFrom]
    | succ i =>
      simp only [enhanceFrom, List.getElem?_cons_succ, ih (b + 1) i]
      have : b + 1 + i = b + (i + 1) := by omega
      rw [this]

/-- Per-factor monotonicity of the enhanced weighted terms. -/
theorem weightedTerm_mono {a b w : ℚ} (hba : b ≤ a) (hw : 0 ≤ w) :
    min (b / 10) 1 * (w / 5) ≤ min (a / 10) 1 * (w / 5) :=
  mul_le_mul_of_nonneg_right (min_le_min (by linarith) le_rfl) (by linarith)

/-- Per-factor nonnegativity for the simple variant. -/
theorem simpleTerm_nonneg {a w : ℚ} (ha : 0 ≤ a) (hw : 0 ≤ w) :
    0 ≤ a * (w / 5) :=
  mul_nonneg ha (by linarith)

/-- Per-factor upper bound for the simple variant. -/
theorem simpleTerm_le {a w : ℚ} (ha : a ≤ 10) (hw : 0 ≤ w) :
    a * (w / 5) ≤ 2 * w := by
  have := mul_le_mul_of_nonneg_right ha (show 0 ≤ w / 5 by linarith)
  linarith

theorem matchResult_ext {a b : MatchResult} (h1 : a.user_id = b.user_id)
    (h2 : a.neighborhood_id = b.neighborhood_id)
    (h3 : a.match_score = b.match_score) : a = b := by
  cases a
  cases b
  simp_all

theorem boostAmount_nonneg {i : ℕ} (hi : i < 10) : 0 ≤ boostAmount i := by
  unfold boostAmount
  have hle : (i : ℚ) ≤ 10 := by exact_mod_cast hi.le
  linarith

/-- With zero jitter, enhancement of an in-range one-decimal score at
rank `i` is exactly the capped boost for `i < 10` and the identity for
`i ≥ 10`. -/
theorem enhanceOne_zero_score (i : ℕ) (r : MatchResult)
    (h40 : 40 ≤ r.match_score) (h95 : r.match_score ≤ 95) (k : ℤ)
    (hk : 10 * r.match_score = (k : ℚ)) :
    (enhanceOne i 0 r).match_score =
      if i < 10 then min (r.match_score + boostAmount i) 95
      else r.match_score := by
  simp only [enhanceOne]
  by_cases hi : i < 10
  · rw [if_pos hi]
    have hb0 : (0 : ℚ) ≤ boostAmount i := boostAmount_nonneg hi
    have hble : min (r.match_score + boostAmount i) 95 ≤ 95 := min_le_right _ _
    have hbge : 40 ≤ min (r.match_score + boostAmount i) 95 :=
      le_min (by linarith) (by norm_num)
    rw [add_zero, min_eq_right hble, max_eq_right hbge]
    rcases le_total (r.match_score + boostAmount i) 95 with hle | hge
    · rw [min_eq_left hle]
      refine toFixed1_of_intMul (k := k + (10 - (i : ℤ)) * 20) ?_
      unfold boostAmount
      push_cast
      linarith
    · rw [min_eq_right hge]
      exact toFixed1_of_intMul (k := 950) (by norm_num)
  · rw [if_neg hi]
    rw [add_zero, min_eq_right h95, max_eq_right h40]
    exact toFixed1_of_intMul hk

/-! ## Claim theorems -/

/-- Claim C1: for every valid importance vector (all 13 fields in [1,5]),
every catalog of valid attribute vectors (all fields in [0,10]) and every
legal jitter source, every match score returned by the enhanced
`calculateAndSaveMatches` after the enhancement step (rank boost, jitter,
clamp, round to one decimal) lies in [40, 95]. -/
theorem c1_enhanced_score_range (userId : String) (p : UserPreferences)
    (nbhds : List Neighborhood) (jitter : ℕ → ℚ)
    (hp : ValidImportance p) (hn : ∀ n ∈ nbhds, ValidAttributes n)
    (hj : ValidJitter jitter) :
    ∀ r ∈ computeMatches userId p nbhds jitter,
      40 ≤ r.match_score ∧ r.match_score ≤ 95 := by
  intro r hr
  simp only [computeMatches, enhance] at hr
  exact enhanceFrom_bounds jitter 0 _ r hr

theorem c1_enhanced_score_range_witness :
    ValidImportance samplePrefsMax ∧
    (∀ n ∈ [sampleNbhdMid], ValidAttributes n) ∧
    ValidJitter zeroJitter ∧
    ∀ r ∈ computeMatches "u" samplePrefsMax [sampleNbhdMid] zeroJitter,
      40 ≤ r.match_score ∧ r.match_score ≤ 95 := by
  have hp : ValidImportance samplePrefsMax := by
    norm_num [ValidImportance, samplePrefsMax]
  have hn : ∀ n ∈ [sampleNbhdMid], ValidAttributes n := by
    intro n hn
    rw [List.mem_singleton.mp hn]
    norm_num [ValidAttributes, sampleNbhdMid]
  have hj : ValidJitter zeroJitter := by
    intro i
    norm_num [zeroJitter]
  exact ⟨hp, hn, hj,
    c1_enhanced_score_range "u" samplePrefsMax [sampleNbhdMid] zeroJitter hp hn hj⟩

/-- Claim C5: with an empty neighborhood catalog the match computation
returns the empty result list (and raises no error: it completes,
leaving the store untouched). -/
theorem c5_empty_catalog (userId : String) (p : UserPreferences)
    (jitter : ℕ → ℚ) (flags : DbFlags) (store : List MatchResult) :
    calculateAndSaveMatches userId (some p) [] jitter flags store =
      ([], store) := by
  simp [calculateAndSaveMatches]

/-- Claim C6: for every importance vector with all 13 fields in [1,5],
the total normalised importance weight is at least 13 * 0.2 and strictly
positive, so the zero-division guard's else branch is unreachable: the
match score is always computed by the main branch
`baseScore + normalizedMatch * variableScore`. -/
theorem c6_guard_unreachable (p : UserPreferences) (hp : ValidImportance p) :
    13 / 5 ≤ totalImportanceWeight p ∧ 0 < totalImportanceWeight p ∧
    ∀ n, matchScore p n =
      baseScore + totalWeightedScore p n / totalImportanceWeight p *
        variableScore := by
  obtain ⟨⟨g1, _⟩, ⟨g2, _⟩, ⟨g3, _⟩, ⟨g4, _⟩, ⟨g5, _⟩, ⟨g6, _⟩, ⟨g7, _⟩,
    ⟨g8, _⟩, ⟨g9, _⟩, ⟨g10, _⟩, ⟨g11, _⟩, ⟨g12, _⟩, ⟨g13, _⟩⟩ := hp
  have hw : 13 / 5 ≤ totalImportanceWeight p := by
    unfold totalImportanceWeight
    linarith
  refine ⟨hw, by linarith, fun n => ?_⟩
  rw [matchScore, if_pos (by linarith)]

theorem c6_guard_unreachable_witness :
    ValidImportance samplePrefsMin ∧
    (13 / 5 ≤ totalImportanceWeight samplePrefsMin ∧
      0 < totalImportanceWeight samplePrefsMin ∧
      ∀ n, matchScore samplePrefsMin n =
        baseScore + totalWeightedScore samplePrefsMin n /
          totalImportanceWeight samplePrefsMin * variableScore) := by
  have hp : ValidImportance samplePrefsMin := by
    norm_num [ValidImportance, samplePrefsMin]
  exact ⟨hp, c6_guard_unreachable samplePrefsMin hp⟩

/-- Claim C9: in the simple variant, for every valid input the stored
match score `(Σ aᵢ (wᵢ/5) / Σ wᵢ) * 10` rounded to two decimals lies in
[0, 20]; in particular it never reaches 40. -/
theorem c9_simple_score_low (userId : String) (p : UserPreferences)
    (n : Neighborhood) (hp : ValidImportance p) (hn : ValidAttributes n) :
    0 ≤ (simpleResult userId p n).match_score ∧
    (simpleResult userId p n).match_score ≤ 20 ∧
    (simpleResult userId p n).match_score < 40 := by
  obtain ⟨⟨g1, _⟩, ⟨g2, _⟩, ⟨g3, _⟩, ⟨g4, _⟩, ⟨g5, _⟩, ⟨g6, _⟩, ⟨g7, _⟩,
    ⟨g8, _⟩, ⟨g9, _⟩, ⟨g10, _⟩, ⟨g11, _⟩, ⟨g12, _⟩, ⟨g13, _⟩⟩ := hp
  obtain ⟨⟨a1, b1⟩, ⟨a2, b2⟩, ⟨a3, b3⟩, ⟨a4, b4⟩, ⟨a5, b5⟩, ⟨a6, b6⟩,
    ⟨a7, b7⟩, ⟨a8, b8⟩, ⟨a9, b9⟩, ⟨a10, b10⟩, ⟨a11, b11⟩, ⟨a12, b12⟩,
    ⟨a13, b13⟩⟩ := hn
  have t1 := simpleTerm_nonneg a1 (show (0:ℚ) ≤ p.safety_importance by linarith)
  have t2 := simpleTerm_nonneg a2 (show (0:ℚ) ≤ p.affordability_importance by linarith)
  have t3 := simpleTerm_nonneg a3 (show (0:ℚ) ≤ p.connectivity_importance by linarith)
  have t4 := simpleTerm_nonneg a4 (show (0:ℚ) ≤ p.metro_access_importance by linarith)
  have t5 := simpleTerm_nonneg a5 (show (0:ℚ) ≤ p.food_culture_importance by linarith)
  have t6 := simpleTerm_nonneg a6 (show (0:ℚ) ≤ p.nightlife_importance by linarith)
  have t7 := simpleTerm_nonneg a7 (show (0:ℚ) ≤ p.family_friendly_importance by linarith)
  have t8 := simpleTerm_nonneg a8 (show (0:ℚ) ≤ p.cultural_diversity_importance by linarith)
  have t9 := simpleTerm_nonneg a9 (show (0:ℚ) ≤ p.green_spaces_importance by linarith)
  have t10 := simpleTerm_nonneg a10 (show (0:ℚ) ≤ p.job_opportunities_importance by linarith)
  have t11 := simpleTerm_nonneg a11 (show (0:ℚ) ≤ p.healthcare_importance by linarith)
  have t12 := simpleTerm_nonneg a12 (show (0:ℚ) ≤ p.education_importance by linarith)
  have t13 := simpleTerm_nonneg a13 (show (0:ℚ) ≤ p.shopping_importance by linarith)
  have u1 := simpleTerm_le b1 (show (0:ℚ) ≤ p.safety_importance by linarith)
  have u2 := simpleTerm_le b2 (show (0:ℚ) ≤ p.affordability_importance by linarith)
  have u3 := simpleTerm_le b3 (show (0:ℚ) ≤ p.connectivity_importance by linarith)
  have u4 := simpleTerm_le b4 (show (0:ℚ) ≤ p.metro_access_importance by linarith)
  have u5 := simpleTerm_le b5 (show (0:ℚ) ≤ p.food_culture_importance by linarith)
  have u6 := simpleTerm_le b6 (show (0:ℚ) ≤ p.nightlife_importance by linarith)
  have u7 := simpleTerm_le b7 (show (0:ℚ) ≤ p.family_friendly_importance by linarith)
  have u8 := simpleTerm_le b8 (show (0:ℚ) ≤ p.cultural_diversity_importance by linarith)
  have u9 := simpleTerm_le b9 (show (0:ℚ) ≤ p.green_spaces_importance by linarith)
  have u10 := simpleTerm_le b10 (show (0:ℚ) ≤ p.job_opportunities_importance by linarith)
  have u11 := simpleTerm_le b11 (show (0:ℚ) ≤ p.healthcare_importance by linarith)
  have u12 := simpleTerm_le b12 (show (0:ℚ) ≤ p.education_importance by linarith)
  have u13 := simpleTerm_le b13 (show (0:ℚ) ≤ p.shopping_importance by linarith)
  have hT : (13 : ℚ) ≤ simpleTotalImportance p := by
    unfold simpleTotalImportance
    linarith
  have hT0 : 0 < simpleTotalImportance p := by linarith
  have hS0 : 0 ≤ simpleTotalScore p n := by
    unfold simpleTotalScore
    linarith
  have hS2 : simpleTotalScore p n ≤ 2 * simpleTotalImportance p := by
    unfold simpleTotalScore simpleTotalImportance
    linarith
  have hq0 : 0 ≤ simpleTotalScore p n / simpleTotalImportance p :=
    div_nonneg hS0 hT0.le
  have hq2 : simpleTotalScore p n / simpleTotalImportance p ≤ 2 := by
    rw [div_le_iff hT0]
    linarith
  have hm0 : 0 ≤ simpleMatchScore p n := by
    unfold simpleMatchScore
    linarith
  have hm20 : simpleMatchScore p n ≤ 20 := by
    unfold simpleMatchScore
    linarith
  have hlow : 0 ≤ (simpleResult userId p n).match_score := by
    simp only [simpleResult]
    exact toFixed2_ge (k := 0) (by norm_num) hm0
  have hhigh : (simpleResult userId p n).match_score ≤ 20 := by
    simp only [simpleResult]
    exact toFixed2_le (k := 2000) (by norm_num) hm20
  exact ⟨hlow, hhigh, by linarith⟩

theorem c9_simple_score_low_witness :
    ValidImportance samplePrefsMin ∧ ValidAttributes sampleNbhdMid ∧
    (0 ≤ (simpleResult "u" samplePrefsMin sampleNbhdMid).match_score ∧
      (simpleResult "u" samplePrefsMin sampleNbhdMid).match_score ≤ 20 ∧
      (simpleResult "u" samplePrefsMin sampleNbhdMid).match_score < 40) := by
  have hp : ValidImportance samplePrefsMin := by
    norm_num [ValidImportance, samplePrefsMin]
  have hn : ValidAttributes sampleNbhdMid := by
    norm_num [ValidAttributes, sampleNbhdMid]
  exact ⟨hp, hn, c9_simple_score_low "u" samplePrefsMin sampleNbhdMid hp hn⟩

/-- Claim C10: when required input is missing (no stored preferences, or
an empty neighborhood catalog) the enhanced `calculateAndSaveMatches`
returns the empty list and the result store is left unchanged: no delete
or insert runs. -/
theorem c10_missing_input_no_store_change (userId : String)
    (p : UserPreferences) (nbhds : List Neighborhood) (jitter : ℕ → ℚ)
    (flags : DbFlags) (store : List MatchResult) :
    calculateAndSaveMatches userId none nbhds jitter flags store =
      ([], store) ∧
    calculateAndSaveMatches userId (some p) [] jitter flags store =
      ([], store) := by
  exact ⟨rfl, by simp [calculateAndSaveMatches]⟩

/-- Claim C2: in the enhancement step with jitter treated as zero, the
result at zero-based rank `i` of the descending-sorted list receives the
boost `(10 - i) * 2` capped so the boosted score does not exceed 95, the
boosts 20, 18, ..., 2 for ranks 0..9 are strictly decreasing, and every
result at rank at least 10 is unchanged. -/
theorem c2_rank_boost (rs : List MatchResult)
    (hrs : ∀ r ∈ rs, 40 ≤ r.match_score ∧ r.match_score ≤ 95 ∧
      ∃ k : ℤ, 10 * r.match_score = (k : ℚ)) :
    (∀ (i : ℕ) (r : MatchResult), rs[i]? = some r →
      (enhance (fun _ => 0) rs)[i]? = some
        { r with match_score :=
            if i < 10 then min (r.match_score + boostAmount i) 95
            else r.match_score }) ∧
    ∀ i j, i < j → j < 10 → boostAmount j < boostAmount i := by
  constructor
  · intro i r hir
    obtain ⟨h40, h95, k, hk⟩ := hrs r (List.getElem?_mem hir)
    rw [enhance, enhanceFrom_getElem, hir]
    simp only [Option.map_some', Nat.zero_add]
    congr 1
    exact matchResult_ext rfl rfl (enhanceOne_zero_score i r h40 h95 k hk)
  · intro i j hij hj10
    unfold boostAmount
    have h1 : (i : ℚ) < (j : ℚ) := by exact_mod_cast hij
    linarith

theorem c2_rank_boost_witness :
    (∀ r ∈ [MatchResult.mk "u" 1 (875 / 10)],
      40 ≤ r.match_score ∧ r.match_score ≤ 95 ∧
        ∃ k : ℤ, 10 * r.match_score = (k : ℚ)) ∧
    ((∀ (i : ℕ) (r : MatchResult), ([MatchResult.mk "u" 1 (875 / 10)])[i]? = some r →
      (enhance (fun _ => 0) [MatchResult.mk "u" 1 (875 / 10)])[i]? = some
        { r with match_score :=
            if i < 10 then min (r.match_score + boostAmount i) 95
            else r.match_score }) ∧
    ∀ i j, i < j → j < 10 → boostAmount j < boostAmount i) := by
  have hrs : ∀ r ∈ [MatchResult.mk "u" 1 (875 / 10)],
      40 ≤ r.match_score ∧ r.match_score ≤ 95 ∧
        ∃ k : ℤ, 10 * r.match_score = (k : ℚ) := by
    intro r hr
    rw [List.mem_singleton.mp hr]
    refine ⟨by norm_num, by norm_num, ⟨875, by norm_num⟩⟩
  exact ⟨hrs, c2_rank_boost [MatchResult.mk "u" 1 (875 / 10)] hrs⟩

/-- Claim C3: for a fixed valid importance vector and attribute vectors
`A`, `B` with every field of `A` at least the corresponding field of `B`,
the pre-enhancement match score of `A` is at least that of `B`. -/
theorem c3_monotone (userId : String) (p : UserPreferences)
    (A B : Neighborhood) (hp : ValidImportance p) (hA : ValidAttributes A)
    (hB : ValidAttributes B) (hBA : AttrLe B A) :
    (computeResult userId p B).match_score ≤
      (computeResult userId p A).match_score := by
  obtain ⟨⟨g1, _⟩, ⟨g2, _⟩, ⟨g3, _⟩, ⟨g4, _⟩, ⟨g5, _⟩, ⟨g6, _⟩, ⟨g7, _⟩,
    ⟨g8, _⟩, ⟨g9, _⟩, ⟨g10, _⟩, ⟨g11, _⟩, ⟨g12, _⟩, ⟨g13, _⟩⟩ := hp
  obtain ⟨e1, e2, e3, e4, e5, e6, e7, e8, e9, e10, e11, e12, e13⟩ := hBA
  have m1 := weightedTerm_mono e1 (show (0:ℚ) ≤ p.safety_importance by linarith)
  have m2 := weightedTerm_mono e2 (show (0:ℚ) ≤ p.affordability_importance by linarith)
  have m3 := weightedTerm_mono e3 (show (0:ℚ) ≤ p.connectivity_importance by linarith)
  have m4 := weightedTerm_mono e4 (show (0:ℚ) ≤ p.metro_access_importance by linarith)
  have m5 := weightedTerm_mono e5 (show (0:ℚ) ≤ p.food_culture_importance by linarith)
  have m6 := weightedTerm_mono e6 (show (0:ℚ) ≤ p.nightlife_importance by linarith)
  have m7 := weightedTerm_mono e7 (show (0:ℚ) ≤ p.family_friendly_importance by linarith)
  have m8 := weightedTerm_mono e8 (show (0:ℚ) ≤ p.cultural_diversity_importance by linarith)
  have m9 := weightedTerm_mono e9 (show (0:ℚ) ≤ p.green_spaces_importance by linarith)
  have m10 := weightedTerm_mono e10 (show (0:ℚ) ≤ p.job_opportunities_importance by linarith)
  have m11 := weightedTerm_mono e11 (show (0:ℚ) ≤ p.healthcare_importance by linarith)
  have m12 := weightedTerm_mono e12 (show (0:ℚ) ≤ p.education_importance by linarith)
  have m13 := weightedTerm_mono e13 (show (0:ℚ) ≤ p.shopping_importance by linarith)
  have hS : totalWeightedScore p B ≤ totalWeightedScore p A := by
    unfold totalWeightedScore
    linarith
  have htw : 0 < totalImportanceWeight p := by
    unfold totalImportanceWeight
    linarith
  have hdiv : totalWeightedScore p B / totalImportanceWeight p ≤
      totalWeightedScore p A / totalImportanceWeight p := by
    gcongr
  have hms : matchScore p B ≤ matchScore p A := by
    rw [matchScore, matchScore, if_pos htw, if_pos htw]
    unfold baseScore variableScore
    linarith
  have hfs : finalScore p B ≤ finalScore p A := by
    unfold finalScore
    exact min_le_min (max_le_max hms le_rfl) le_rfl
  simp only [computeResult]
  exact toFixed1_mono hfs

theorem c3_monotone_witness :
    ValidImportance samplePrefsMax ∧ ValidAttributes sampleNbhdMax ∧
    ValidAttributes sampleNbhdMin ∧ AttrLe sampleNbhdMin sampleNbhdMax ∧
    (computeResult "u" samplePrefsMax sampleNbhdMin).match_score ≤
      (computeResult "u" samplePrefsMax sampleNbhdMax).match_score := by
  have hp : ValidImportance samplePrefsMax := by
    norm_num [ValidImportance, samplePrefsMax]
  have hA : ValidAttributes sampleNbhdMax := by
    norm_num [ValidAttributes, sampleNbhdMax]
  have hB : ValidAttributes sampleNbhdMin := by
    norm_num [ValidAttributes, sampleNbhdMin]
  have hBA : AttrLe sampleNbhdMin sampleNbhdMax := by
    norm_num [AttrLe, sampleNbhdMin, sampleNbhdMax]
  exact ⟨hp, hA, hB, hBA,
    c3_monotone "u" samplePrefsMax sampleNbhdMax sampleNbhdMin hp hA hB hBA⟩

/-- Enhancing the same result at the same rank with two jitter values a
one-decimal amount apart gives scores at most that amount apart. -/
theorem enhanceOne_diff (i : ℕ) (x y : ℚ) (r : MatchResult) (m : ℤ)
    (hm : (0 : ℚ) ≤ (m : ℚ) / 10) (hxy : x ≤ y + (m : ℚ) / 10)
    (hyx : y ≤ x + (m : ℚ) / 10) :
    |(enhanceOne i x r).match_score - (enhanceOne i y r).match_score| ≤
      (m : ℚ) / 10 := by
  simp only [enhanceOne]
  rw [abs_sub_le_iff]
  constructor
  · have h1 := clamp_shift hm (show
      (if i < 10 then min (r.match_score + boostAmount i) 95
        else r.match_score) + x ≤
      (if i < 10 then min (r.match_score + boostAmount i) 95
        else r.match_score) + y + (m : ℚ) / 10 by linarith)
    have h2 := toFixed1_sub_le (m := m) h1
    linarith
  · have h1 := clamp_shift hm (show
      (if i < 10 then min (r.match_score + boostAmount i) 95
        else r.match_score) + y ≤
      (if i < 10 then min (r.match_score + boostAmount i) 95
        else r.match_score) + x + (m : ℚ) / 10 by linarith)
    have h2 := toFixed1_sub_le (m := m) h1
    linarith

/-- Claim C4 as stated is refuted: two runs of the enhanced computation
on identical valid inputs, with legal jitter draws 0.96 and -1, produce
post-enhancement scores 88.5 and 86.5 — 2.0 apart, more than the jitter
amplitude 1. -/
theorem c4_jitter_bound_counterexample :
    ValidImportance samplePrefsMax ∧ ValidAttributes sampleNbhdMid ∧
    ValidJitter jitterHigh ∧ ValidJitter jitterLow ∧
    computeMatches "u" samplePrefsMax [sampleNbhdMid] jitterHigh =
      [⟨"u", 1, 885 / 10⟩] ∧
    computeMatches "u" samplePrefsMax [sampleNbhdMid] jitterLow =
      [⟨"u", 1, 865 / 10⟩] ∧
    ¬ (|(885 / 10 : ℚ) - 865 / 10| ≤ 1) := by
  refine ⟨by norm_num [ValidImportance, samplePrefsMax],
    by norm_num [ValidAttributes, sampleNbhdMid],
    fun i => by norm_num [jitterHigh], fun i => by norm_num [jitterLow],
    ?_, ?_, ?_⟩
  · norm_num [computeMatches, enhance, enhanceFrom, enhanceOne, sortResults,
      insertDesc, computeResult, finalScore, matchScore, totalWeightedScore,
      totalImportanceWeight, baseScore, variableScore, boostAmount, toFixed1,
      round_eq, samplePrefsMax, sampleNbhdMid, jitterHigh]
  · norm_num [computeMatches, enhance, enhanceFrom, enhanceOne, sortResults,
      insertDesc, computeResult, finalScore, matchScore, totalWeightedScore,
      totalImportanceWeight, baseScore, variableScore, boostAmount, toFixed1,
      round_eq, samplePrefsMax, sampleNbhdMid, jitterLow]
  · rw [abs_sub_le_iff]
    norm_num

/-- Claim C4 amended: the pre-enhancement stage (map, round, sort) is the
same deterministic function of the inputs in both runs, the boost applied
at each rank is deterministic, and two runs on identical inputs with
legal jitter draws produce rows with identical identifiers whose scores
differ by at most 2 — twice the jitter amplitude; against the zero-jitter
run the difference is at most the jitter amplitude 1. -/
theorem c4_determinism_modulo_jitter (userId : String) (p : UserPreferences)
    (nbhds : List Neighborhood) (j1 j2 : ℕ → ℚ)
    (h1 : ValidJitter j1) (h2 : ValidJitter j2) :
    computeMatches userId p nbhds j1 =
      enhance j1 (sortResults (nbhds.map (computeResult userId p))) ∧
    computeMatches userId p nbhds j2 =
      enhance j2 (sortResults (nbhds.map (computeResult userId p))) ∧
    (∀ (i : ℕ) (r1 r2 : MatchResult),
      (computeMatches userId p nbhds j1)[i]? = some r1 →
      (computeMatches userId p nbhds j2)[i]? = some r2 →
      r1.user_id = r2.user_id ∧ r1.neighborhood_id = r2.neighborhood_id ∧
        |r1.match_score - r2.match_score| ≤ 2) ∧
    (∀ (i : ℕ) (r1 r0 : MatchResult),
      (computeMatches userId p nbhds j1)[i]? = some r1 →
      (computeMatches userId p nbhds zeroJitter)[i]? = some r0 →
      |r1.match_score - r0.match_score| ≤ 1) := by
  refine ⟨rfl, rfl, ?_, ?_⟩
  · intro i r1 r2 hr1 hr2
    rw [computeMatches, enhance, enhanceFrom_getElem] at hr1 hr2
    cases hrs : (sortResults (nbhds.map (computeResult userId p)))[i]? with
    | none =>
      rw [hrs] at hr1
      simp at hr1
    | some r =>
      rw [hrs] at hr1 hr2
      simp only [Option.map_some', Nat.zero_add, Option.some.injEq] at hr1 hr2
      obtain ⟨hx1, hx2⟩ := h1 i
      obtain ⟨hy1, hy2⟩ := h2 i
      have hd := enhanceOne_diff i (j1 i) (j2 i) r 20 (by norm_num)
        (by push_cast; linarith) (by push_cast; linarith)
      rw [hr1, hr2] at hd
      norm_num at hd
      exact ⟨by rw [← hr1, ← hr2]; rfl, by rw [← hr1, ← hr2]; rfl, hd⟩
  · intro i r1 r0 hr1 hr0
    rw [computeMatches, enhance, enhanceFrom_getElem] at hr1 hr0
    cases hrs : (sortResults (nbhds.map (computeResult userId p)))[i]? with
    | none =>
      rw [hrs] at hr1
      simp at hr1
    | some r =>
      rw [hrs] at hr1 hr0
      simp only [Option.map_some', Nat.zero_add, Option.some.injEq] at hr1 hr0
      obtain ⟨hx1, hx2⟩ := h1 i
      have hd := enhanceOne_diff i (j1 i) (zeroJitter i) r 10 (by norm_num)
        (by push_cast; simp only [zeroJitter]; linarith)
        (by push_cast; simp only [zeroJitter]; linarith)
      rw [hr1, hr0] at hd
      norm_num at hd
      exact hd

theorem c4_determinism_modulo_jitter_witness :
    ValidJitter jitterHigh ∧ ValidJitter jitterLow ∧
    (computeMatches "u" samplePrefsMax [sampleNbhdMid] jitterHigh =
      enhance jitterHigh
        (sortResults ([sampleNbhdMid].map (computeResult "u" samplePrefsMax))) ∧
    computeMatches "u" samplePrefsMax [sampleNbhdMid] jitterLow =
      enhance jitterLow
        (sortResults ([sampleNbhdMid].map (computeResult "u" samplePrefsMax))) ∧
    (∀ (i : ℕ) (r1 r2 : MatchResult),
      (computeMatches "u" samplePrefsMax [sampleNbhdMid] jitterHigh)[i]? =
        some r1 →
      (computeMatches "u" samplePrefsMax [sampleNbhdMid] jitterLow)[i]? =
        some r2 →
      r1.user_id = r2.user_id ∧ r1.neighborhood_id = r2.neighborhood_id ∧
        |r1.match_score - r2.match_score| ≤ 2) ∧
    (∀ (i : ℕ) (r1 r0 : MatchResult),
      (computeMatches "u" samplePrefsMax [sampleNbhdMid] jitterHigh)[i]? =
        some r1 →
      (computeMatches "u" samplePrefsMax [sampleNbhdMid] zeroJitter)[i]? =
        some r0 →
      |r1.match_score - r0.match_score| ≤ 1)) := by
  have hj1 : ValidJitter jitterHigh := fun i => by norm_num [jitterHigh]
  have hj2 : ValidJitter jitterLow := fun i => by norm_num [jitterLow]
  exact ⟨hj1, hj2, c4_determinism_modulo_jitter "u" samplePrefsMax
    [sampleNbhdMid] jitterHigh jitterLow hj1 hj2⟩

/-- If no incoming row conflicts with a stored row or with an earlier
incoming row, the upsert is a plain append. -/
theorem applyUpsert_of_no_conflict :
    ∀ (rows store : List MatchResult),
      (∀ s ∈ store, ∀ r ∈ rows, sameKey s r = false) →
      rows.Pairwise (fun a b => sameKey a b = false) →
      applyUpsert store rows = store ++ rows := by
  intro rows
  induction rows with
  | nil =>
    intro store h hp
    simp [applyUpsert]
  | cons r rest ih =>
    intro store h hp
    simp only [applyUpsert, List.foldl_cons]
    have hnoc : store.any (fun s => sameKey s r) = false := by
      rw [List.any_eq_false]
      intro s hs
      simp [h s hs r (List.mem_cons_self r rest)]
    have hstep : upsertRow store r = store ++ [r] := by
      rw [upsertRow, hnoc]
      simp
    rw [hstep]
    have hrec := ih (store ++ [r]) ?_ (List.pairwise_cons.mp hp).2
    · rw [applyUpsert] at hrec
      rw [hrec]
      simp
    · intro s hs r2 hr2
      rcases List.mem_append.mp hs with hs | hs
      · exact h s hs r2 (List.mem_cons_of_mem r hr2)
      · rw [List.mem_singleton.mp hs]
        exact (List.pairwise_cons.mp hp).1 r2 hr2

theorem mem_deleteForUser {store : List MatchResult} {userId : String}
    {s : MatchResult} (hs : s ∈ deleteForUser store userId) :
    s ∈ store ∧ s.user_id ≠ userId := by
  have h := List.mem_filter.mp hs
  exact ⟨h.1, of_decide_eq_true h.2⟩

/-- Claim C7 as stated is refuted at a concrete input: with the delete
succeeding and both the upsert and the fallback insert failing, the
failure is surfaced (empty return), but the store is left holding neither
the user's prior row nor the new one — the prior results were already
deleted, a partial intermediate state. -/
theorem c7_atomic_supersede_counterexample :
    (saveResults [oldRow] "u" [newRow] ⟨true, false, false⟩).1 = [] ∧
    (saveResults [oldRow] "u" [newRow] ⟨true, false, false⟩).2 = [] ∧
    oldRow.user_id = "u" ∧ newRow.user_id = "u" ∧
    [oldRow] ≠ ([] : List MatchResult) ∧
    [newRow] ≠ ([] : List MatchResult) := by
  refine ⟨?_, ?_, rfl, rfl, by simp, by simp⟩
  · simp [saveResults]
  · simp [saveResults, deleteForUser, oldRow]

/-- Claim C7 amended: when the newly computed rows all belong to the user,
have pairwise distinct conflict keys and are nonempty, then (a) the run
surfaces the failure (returns the empty list) iff both the upsert and the
fallback insert fail, (b) if the delete succeeds and the upsert or the
fallback insert succeeds, the store afterwards holds exactly the new rows
for that user and all other rows unchanged, and (c) if the delete
succeeds and both saving calls fail, the user's prior rows have
nevertheless been deleted: the store keeps only the other rows (a state
holding neither the prior nor the new result set). -/
theorem c7_replace_semantics (store : List MatchResult) (userId : String)
    (enhanced : List MatchResult) (flags : DbFlags)
    (huser : ∀ r ∈ enhanced, r.user_id = userId)
    (hkeys : enhanced.Pairwise (fun a b => sameKey a b = false))
    (hne : enhanced ≠ []) :
    ((saveResults store userId enhanced flags).1 = [] ↔
      flags.upsertOk = false ∧ flags.insertOk = false) ∧
    (flags.deleteOk = true → (flags.upsertOk = true ∨ flags.insertOk = true) →
      (saveResults store userId enhanced flags).2 =
        deleteForUser store userId ++ enhanced) ∧
    (flags.deleteOk = true → flags.upsertOk = false → flags.insertOk = false →
      (saveResults store userId enhanced flags).2 =
        deleteForUser store userId) := by
  obtain ⟨d, u, ins⟩ := flags
  have happend : applyUpsert (deleteForUser store userId) enhanced =
      deleteForUser store userId ++ enhanced := by
    apply applyUpsert_of_no_conflict
    · intro s hs r hr
      have hsu := (mem_deleteForUser hs).2
      have hru := huser r hr
      rw [sameKey]
      simp only [decide_eq_false_iff_not]
      intro hcon
      exact hsu (hcon.1.trans hru)
    · exact hkeys
  cases u <;> cases ins <;> cases d <;>
    simp_all [saveResults, deleteForUser]

theorem c7_replace_semantics_witness :
    (∀ r ∈ [newRow], r.user_id = "u") ∧
    ([newRow].Pairwise (fun a b => sameKey a b = false)) ∧
    [newRow] ≠ [] ∧
    (((saveResults [oldRow] "u" [newRow] ⟨true, true, true⟩).1 = [] ↔
      DbFlags.upsertOk ⟨true, true, true⟩ = false ∧
        DbFlags.insertOk ⟨true, true, true⟩ = false) ∧
    (DbFlags.deleteOk ⟨true, true, true⟩ = true →
      (DbFlags.upsertOk ⟨true, true, true⟩ = true ∨
        DbFlags.insertOk ⟨true, true, true⟩ = true) →
      (saveResults [oldRow] "u" [newRow] ⟨true, true, true⟩).2 =
        deleteForUser [oldRow] "u" ++ [newRow]) ∧
    (DbFlags.deleteOk ⟨true, true, true⟩ = true →
      DbFlags.upsertOk ⟨true, true, true⟩ = false →
      DbFlags.insertOk ⟨true, true, true⟩ = false →
      (saveResults [oldRow] "u" [newRow] ⟨true, true, true⟩).2 =
        deleteForUser [oldRow] "u")) := by
  have huser : ∀ r ∈ [newRow], r.user_id = "u" := by
    intro r hr
    rw [List.mem_singleton.mp hr]
    rfl
  have hkeys : [newRow].Pairwise (fun a b => sameKey a b = false) := by
    simp
  have hne : [newRow] ≠ ([] : List MatchResult) := by simp
  exact ⟨huser, hkeys, hne,
    c7_replace_semantics [oldRow] "u" [newRow] ⟨true, true, true⟩ huser hkeys hne⟩

theorem simpleTotalScore_eq (p : UserPreferences) (n : Neighborhood) :
    simpleTotalScore p n = specWeightedSum p n / 5 := by
  unfold simpleTotalScore specWeightedSum
  ring

theorem totalImportanceWeight_eq (p : UserPreferences) :
    totalImportanceWeight p = simpleTotalImportance p / 5 := by
  unfold totalImportanceWeight simpleTotalImportance
  ring

/-- On the documented attribute domain the min-clamps of the enhanced
variant are inactive, and its weighted sum is the common weighted sum
scaled by 1/50. -/
theorem totalWeightedScore_eq (p : UserPreferences) (n : Neighborhood)
    (hn : ValidAttributes n) :
    totalWeightedScore p n = specWeightedSum p n / 50 := by
  obtain ⟨⟨_, b1⟩, ⟨_, b2⟩, ⟨_, b3⟩, ⟨_, b4⟩, ⟨_, b5⟩, ⟨_, b6⟩, ⟨_, b7⟩,
    ⟨_, b8⟩, ⟨_, b9⟩, ⟨_, b10⟩, ⟨_, b11⟩, ⟨_, b12⟩, ⟨_, b13⟩⟩ := hn
  unfold totalWeightedScore specWeightedSum
  rw [min_eq_left (by linarith : n.safety_score / 10 ≤ 1),
    min_eq_left (by linarith : n.affordability_score / 10 ≤ 1),
    min_eq_left (by linarith : n.connectivity_score / 10 ≤ 1),
    min_eq_left (by linarith : n.metro_access_score / 10 ≤ 1),
    min_eq_left (by linarith : n.food_culture_score / 10 ≤ 1),
    min_eq_left (by linarith : n.nightlife_score / 10 ≤ 1),
    min_eq_left (by linarith : n.family_friendly_score / 10 ≤ 1),
    min_eq_left (by linarith : n.cultural_diversity_score / 10 ≤ 1),
    min_eq_left (by linarith : n.green_spaces_score / 10 ≤ 1),
    min_eq_left (by linarith : n.job_opportunities_score / 10 ≤ 1),
    min_eq_left (by linarith : n.healthcare_score / 10 ≤ 1),
    min_eq_left (by linarith : n.education_score / 10 ≤ 1),
    min_eq_left (by linarith : n.shopping_score / 10 ≤ 1)]
  ring

theorem specRatio_bounds (p : UserPreferences) (n : Neighborhood)
    (hp : ValidImportance p) (hn : ValidAttributes n) :
    0 < simpleTotalImportance p ∧ 0 ≤ specRatio p n ∧ specRatio p n ≤ 10 := by
  obtain ⟨⟨g1, _⟩, ⟨g2, _⟩, ⟨g3, _⟩, ⟨g4, _⟩, ⟨g5, _⟩, ⟨g6, _⟩, ⟨g7, _⟩,
    ⟨g8, _⟩, ⟨g9, _⟩, ⟨g10, _⟩, ⟨g11, _⟩, ⟨g12, _⟩, ⟨g13, _⟩⟩ := hp
  obtain ⟨⟨a1, b1⟩, ⟨a2, b2⟩, ⟨a3, b3⟩, ⟨a4, b4⟩, ⟨a5, b5⟩, ⟨a6, b6⟩,
    ⟨a7, b7⟩, ⟨a8, b8⟩, ⟨a9, b9⟩, ⟨a10, b10⟩, ⟨a11, b11⟩, ⟨a12, b12⟩,
    ⟨a13, b13⟩⟩ := hn
  have t1 : 0 ≤ n.safety_score * p.safety_importance :=
    mul_nonneg a1 (by linarith)
  have t2 : 0 ≤ n.affordability_score * p.affordability_importance :=
    mul_nonneg a2 (by linarith)
  have t3 : 0 ≤ n.connectivity_score * p.connectivity_importance :=
    mul_nonneg a3 (by linarith)
  have t4 : 0 ≤ n.metro_access_score * p.metro_access_importance :=
    mul_nonneg a4 (by linarith)
  have t5 : 0 ≤ n.food_culture_score * p.food_culture_importance :=
    mul_nonneg a5 (by linarith)
  have t6 : 0 ≤ n.nightlife_score * p.nightlife_importance :=
    mul_nonneg a6 (by linarith)
  have t7 : 0 ≤ n.family_friendly_score * p.family_friendly_importance :=
    mul_nonneg a7 (by linarith)
  have t8 : 0 ≤ n.cultural_diversity_score * p.cultural_diversity_importance :=
    mul_nonneg a8 (by linarith)
  have t9 : 0 ≤ n.green_spaces_score * p.green_spaces_importance :=
    mul_nonneg a9 (by linarith)
  have t10 : 0 ≤ n.job_opportunities_score * p.job_opportunities_importance :=
    mul_nonneg a10 (by linarith)
  have t11 : 0 ≤ n.healthcare_score * p.healthcare_importance :=
    mul_nonneg a11 (by linarith)
  have t12 : 0 ≤ n.education_score * p.education_importance :=
    mul_nonneg a12 (by linarith)
  have t13 : 0 ≤ n.shopping_score * p.shopping_importance :=
    mul_nonneg a13 (by linarith)
  have u1 : n.safety_score * p.safety_importance ≤
      10 * p.safety_importance :=
    mul_le_mul_of_nonneg_right b1 (by linarith)
  have u2 : n.affordability_score * p.affordability_importance ≤
      10 * p.affordability_importance :=
    mul_le_mul_of_nonneg_right b2 (by linarith)
  have u3 : n.connectivity_score * p.connectivity_importance ≤
      10 * p.connectivity_importance :=
    mul_le_mul_of_nonneg_right b3 (by linarith)
  have u4 : n.metro_access_score * p.metro_access_importance ≤
      10 * p.metro_access_importance :=
    mul_le_mul_of_nonneg_right b4 (by linarith)
  have u5 : n.food_culture_score * p.food_culture_importance ≤
      10 * p.food_culture_importance :=
    mul_le_mul_of_nonneg_right b5 (by linarith)
  have u6 : n.nightlife_score * p.nightlife_importance ≤
      10 * p.nightlife_importance :=
    mul_le_mul_of_nonneg_right b6 (by linarith)
  have u7 : n.family_friendly_score * p.family_friendly_importance ≤
      10 * p.family_friendly_importance :=
    mul_le_mul_of_nonneg_right b7 (by linarith)
  have u8 : n.cultural_diversity_score * p.cultural_diversity_importance ≤
      10 * p.cultural_diversity_importance :=
    mul_le_mul_of_nonneg_right b8 (by linarith)
  have u9 : n.green_spaces_score * p.green_spaces_importance ≤
      10 * p.green_spaces_importance :=
    mul_le_mul_of_nonneg_right b9 (by linarith)
  have u10 : n.job_opportunities_score * p.job_opportunities_importance ≤
      10 * p.job_opportunities_importance :=
    mul_le_mul_of_nonneg_right b10 (by linarith)
  have u11 : n.healthcare_score * p.healthcare_importance ≤
      10 * p.healthcare_importance :=
    mul_le_mul_of_nonneg_right b11 (by linarith)
  have u12 : n.education_score * p.education_importance ≤
      10 * p.education_importance :=
    mul_le_mul_of_nonneg_right b12 (by linarith)
  have u13 : n.shopping_score * p.shopping_importance ≤
      10 * p.shopping_importance :=
    mul_le_mul_of_nonneg_right b13 (by linarith)
  have hT : (13 : ℚ) ≤ simpleTotalImportance p := by
    unfold simpleTotalImportance
    linarith
  have hT0 : 0 < simpleTotalImportance p := by linarith
  have hS0 : 0 ≤ specWeightedSum p n := by
    unfold specWeightedSum
    linarith
  have hS10 : specWeightedSum p n ≤ 10 * simpleTotalImportance p := by
    unfold specWeightedSum simpleTotalImportance
    linarith
  refine ⟨hT0, div_nonneg hS0 hT0.le, ?_⟩
  rw [specRatio, div_le_iff₀ hT0]
  linarith

theorem simpleMatchScore_affine (p : UserPreferences) (n : Neighborhood)
    (hT0 : 0 < simpleTotalImportance p) :
    simpleMatchScore p n = 2 * specRatio p n := by
  have hne := ne_of_gt hT0
  unfold simpleMatchScore specRatio
  rw [simpleTotalScore_eq]
  field_simp
  ring

theorem matchScore_affine (p : UserPreferences) (n : Neighborhood)
    (hp : ValidImportance p) (hn : ValidAttributes n) :
    matchScore p n = 40 + 11 / 2 * specRatio p n := by
  obtain ⟨hT0, _, _⟩ := specRatio_bounds p n hp hn
  have hne := ne_of_gt hT0
  have htw : 0 < totalImportanceWeight p := by
    rw [totalImportanceWeight_eq]
    linarith
  rw [matchScore, if_pos htw, totalWeightedScore_eq p n hn,
    totalImportanceWeight_eq]
  unfold baseScore variableScore specRatio
  field_simp
  ring

theorem finalScore_affine (p : UserPreferences) (n : Neighborhood)
    (hp : ValidImportance p) (hn : ValidAttributes n) :
    finalScore p n = 40 + 11 / 2 * specRatio p n := by
  obtain ⟨_, hr0, hr10⟩ := specRatio_bounds p n hp hn
  have hms := matchScore_affine p n hp hn
  unfold finalScore baseScore variableScore
  rw [hms, max_eq_left (by linarith), min_eq_left (by linarith)]

/-- Claim C8: before rounding and enhancement, the simple and the
enhanced variants are strictly increasing affine functions of the same
weighted ratio `Σ aᵢ wᵢ / Σ wᵢ` (the simple score is `2 · ratio`, the
enhanced pre-enhancement score is `40 + 5.5 · ratio`), so they rank any
two valid attribute vectors identically. -/
theorem c8_variants_rank_identically (p : UserPreferences)
    (A B : Neighborhood) (hp : ValidImportance p) (hA : ValidAttributes A)
    (hB : ValidAttributes B) :
    simpleMatchScore p A = 2 * specRatio p A ∧
    finalScore p A = 40 + 11 / 2 * specRatio p A ∧
    (simpleMatchScore p B < simpleMatchScore p A ↔
      finalScore p B < finalScore p A) := by
  obtain ⟨hT0, _, _⟩ := specRatio_bounds p A hp hA
  have hsA := simpleMatchScore_affine p A hT0
  have hsB := simpleMatchScore_affine p B hT0
  have heA := finalScore_affine p A hp hA
  have heB := finalScore_affine p B hp hB
  refine ⟨hsA, heA, ?_⟩
  rw [hsA, hsB, heA, heB]
  constructor <;> intro h <;> linarith

theorem c8_variants_rank_identically_witness :
    ValidImportance samplePrefsMax ∧ ValidAttributes sampleNbhdMax ∧
    ValidAttributes sampleNbhdMin ∧
    (simpleMatchScore samplePrefsMax sampleNbhdMax =
      2 * specRatio samplePrefsMax sampleNbhdMax ∧
    finalScore samplePrefsMax sampleNbhdMax =
      40 + 11 / 2 * specRatio samplePrefsMax sampleNbhdMax ∧
    (simpleMatchScore samplePrefsMax sampleNbhdMin <
      simpleMatchScore samplePrefsMax sampleNbhdMax ↔
      finalScore samplePrefsMax sampleNbhdMin <
        finalScore samplePrefsMax sampleNbhdMax)) := by
  have hp : ValidImportance samplePrefsMax := by
    norm_num [ValidImportance, samplePrefsMax]
  have hA : ValidAttributes sampleNbhdMax := by
    norm_num [ValidAttributes, sampleNbhdMax]
  have hB : ValidAttributes sampleNbhdMin := by
    norm_num [ValidAttributes, sampleNbhdMin]
  exact ⟨hp, hA, hB, c8_variants_rank_identically samplePrefsMax
    sampleNbhdMax sampleNbhdMin hp hA hB⟩

end NeighborFit
